import Mathlib

/-!
Shallow embedding of `build-tracer.py` (repository Simakeng/tracer-git).

The script is a thin sequential wrapper around external `git` commands:
parse CLI flags, shell out to a few subcommands, check return codes,
print diagnostics.  We embed it as pure state-passing functions:

* `PState` is the observable process state: the process working directory,
  the list of commands passed to the command runner (`issued`), the list of
  commands that actually spawned a subprocess (`executed`), and the lines
  printed to stdout / stderr.
* `CmdOutcome` abstracts what the operating system does for one actually
  executed command: normal completion with an exit code and captured
  stdout, a timeout with partial captured output, or any other failure
  (such as a spawn error).  A run is parametrised by a `world : Nat →
  CmdOutcome` giving the outcome of the i-th actually executed command.
* `sys.exit` / argparse's `SystemExit` are modelled by the `ExitResult`
  value that `main` returns; Python's `finally` block is modelled by
  applying the restoring update to whatever state the protected body ends
  in, on every path.
-/

set_option autoImplicit false

namespace BuildTracer

/-- Outcome of one actually executed external command, as seen by
`subprocess.run(cmd, shell=True, check=True, stdout=PIPE, timeout=10)`:
normal completion (with `check=True`, a non-zero exit code surfaces as
`CalledProcessError`, which `run_command` catches and turns back into the
same (code, stdout) pair), a timeout (`TimeoutExpired`, carrying the
partial captured stdout), or any other failure such as a spawn error. -/
inductive CmdOutcome where
  | completed (code : Int) (stdout : String)
  | timedOut (captured : String)
  | otherFailure
  deriving Repr, DecidableEq

/-- Observable process state threaded through the embedded script. -/
structure PState where
  /-- current working directory of the process (`os.getcwd` / `os.chdir`) -/
  cwd : String
  /-- how many external commands have actually been executed so far;
  indexes into the world oracle -/
  execCount : Nat
  /-- commands that actually spawned a subprocess, in order -/
  executed : List String
  /-- commands passed to `run_command` (whether or not executed), in order -/
  issued : List String
  /-- lines printed to standard output -/
  stdoutLines : List String
  /-- lines printed to standard error -/
  stderrLines : List String
  deriving Repr, DecidableEq

/-- Initial process state in directory `d`: no commands run, nothing printed. -/
def PState.init (d : String) : PState :=
  { cwd := d, execCount := 0, executed := [], issued := [],
    stdoutLines := [], stderrLines := [] }

/-- Append a line to standard output (`print(...)`). -/
def pushOut (s : PState) (line : String) : PState :=
  { s with stdoutLines := s.stdoutLines ++ [line] }

/-- Append a line to standard error (`print(..., file=sys.stderr)`). -/
def pushErr (s : PState) (line : String) : PState :=
  { s with stderrLines := s.stderrLines ++ [line] }

/-- Python whitespace, as removed by `str.strip()`. -/
def pySpace (c : Char) : Bool :=
  c = ' ' || c = '\t' || c = '\n' || c = '\r' || c = '\x0b' || c = '\x0c'

/-- Python's `str.strip()`: remove leading and trailing whitespace. -/
def strip (s : String) : String :=
  ⟨((s.data.dropWhile pySpace).reverse.dropWhile pySpace).reverse⟩

/-- What the `try/except` ladder in `run_command` (lines 54-72) turns one
OS-level outcome into: normal completion returns `(returncode, stdout)`;
with `check=True` a non-zero exit raises `CalledProcessError ex` and the
handler returns `(ex.returncode, ex.stdout)` — the same pair; a
`TimeoutExpired ex` becomes `(-1, ex.stdout)`; any other exception becomes
`(-1, "")`. -/
def runReal : CmdOutcome → Int × String
  | .completed code out => (code, out)
  | .timedOut captured => (-1, captured)
  | .otherFailure => (-1, "")

/-- Embedding of `run_command(cmd, dry_run, verbose)` (lines 35-74).
If `dry_run or verbose`, the command text is printed first.  If `dry_run`,
nothing is executed and `(0, "")` is returned; otherwise the command is
actually executed and the world oracle's outcome is normalised by
`runReal`.  (All call sites in this program pass a string, so the
`isinstance(cmd, list)` join branch is dead and not modelled.) -/
def run_command (world : Nat → CmdOutcome) (cmd : String)
    (dry_run verbose : Bool) (s : PState) : (Int × String) × PState :=
  let s1 : PState :=
    { s with issued := s.issued ++ [cmd],
             stdoutLines := if dry_run || verbose then s.stdoutLines ++ [cmd]
                            else s.stdoutLines }
  if dry_run then ((0, ""), s1)
  else (runReal (world s1.execCount),
        { s1 with execCount := s1.execCount + 1,
                  executed := s1.executed ++ [cmd] })

/-- Embedding of `change_working_directory(cwd, dry_run, verbose)`
(lines 20-32): echo `cd` when dry-run or verbose, change directory unless
dry-run.  (Defined by the script but not used by `main`.) -/
def change_working_directory (cwd : String) (dry_run verbose : Bool)
    (s : PState) : PState :=
  let s1 := if dry_run || verbose then pushOut s ("cd " ++ cwd) else s
  if !dry_run then { s1 with cwd := cwd } else s1

/-- Value of an argparse attribute: the default `False` is a Python bool,
while any value supplied on the command line is a string. -/
inductive ArgVal where
  | bool (b : Bool)
  | str (s : String)
  deriving Repr, DecidableEq

/-- Python truthiness as applied to an argparse attribute in a boolean
context (`if args.verbose:` and the `dry_run or verbose` tests):
`bool(False) = False`, `bool(s) = (s != "")` for a string. -/
def ArgVal.truthy : ArgVal → Bool
  | .bool b => b
  | .str s => s != ""

/-- Parsed CLI configuration (the `args` namespace object). -/
structure Args where
  branch : String
  tracer_name : String
  message : String
  dry_run : ArgVal
  verbose : ArgVal
  cwd : String
  deriving Repr, DecidableEq

/-- Defaults installed by `get_cli_args_parser` (lines 77-97): note that
`-n` (`--dry-run`) and `-v` (`--verbose`) are plain store actions with default
`False`, not store-true flags. -/
def Args.initial : Args :=
  { branch := "master", tracer_name := "build-tracer",
    message := "build-tracer", dry_run := .bool false,
    verbose := .bool false, cwd := "." }

/-- A token that argparse would treat as an option rather than as an
option's value: it begins with the option prefix character (this parser
has no options that look like negative numbers, so every dash-initial
token is read as an option string). -/
def looksLikeOption (t : String) : Bool :=
  match t.data with
  | [] => false
  | c :: _ => c = '-'

/-- Embedding of the parser built by `get_cli_args_parser` processing one
token list (the `=`-joined spelling `--flag=value` is not needed by any
call considered here and is not modelled; each option is a store action
that requires exactly one following value token).  A missing value,
a dash-initial token in value position, or an unrecognised token is a
parse error; argparse then prints usage and raises `SystemExit(2)`. -/
def parseTokens : List String → Args → Except Int Args
  | [], a => .ok a
  | t :: rest, a =>
    if t = "-b" || t = "--branch" then
      match rest with
      | v :: rest2 =>
        if looksLikeOption v then .error 2
        else parseTokens rest2 { a with branch := v }
      | [] => .error 2
    else if t = "-t" || t = "--tracer-name" then
      match rest with
      | v :: rest2 =>
        if looksLikeOption v then .error 2
        else parseTokens rest2 { a with tracer_name := v }
      | [] => .error 2
    else if t = "-m" || t = "--message" then
      match rest with
      | v :: rest2 =>
        if looksLikeOption v then .error 2
        else parseTokens rest2 { a with message := v }
      | [] => .error 2
    else if t = "-n" || t = "--dry-run" then
      match rest with
      | v :: rest2 =>
        if looksLikeOption v then .error 2
        else parseTokens rest2 { a with dry_run := .str v }
      | [] => .error 2
    else if t = "-v" || t = "--verbose" then
      match rest with
      | v :: rest2 =>
        if looksLikeOption v then .error 2
        else parseTokens rest2 { a with verbose := .str v }
      | [] => .error 2
    else if t = "-C" || t = "--cwd" then
      match rest with
      | v :: rest2 =>
        if looksLikeOption v then .error 2
        else parseTokens rest2 { a with cwd := v }
      | [] => .error 2
    else .error 2

/-- Parse an argument vector (`parser.parse_args()` on `sys.argv[1:]`). -/
def parse_args (argv : List String) : Except Int Args :=
  parseTokens argv Args.initial

/-- How an invocation of `main` terminates: falling off the end (process
exit 0), or a `SystemExit` raised by `sys.exit(code)` / argparse. -/
inductive ExitResult where
  | normal
  | exit (code : Int)
  deriving Repr, DecidableEq

/-- The three commands `main` can issue, in order (lines 143, 151, 157). -/
def preflightCmds : List String :=
  ["git --version", "git rev-parse --is-inside-work-tree",
   "git rev-parse HEAD"]

/-- The body of the `try:` block of `main` (lines 135-160): parse
arguments (argparse failure raises `SystemExit(2)` from inside the
protected block), `os.chdir(path.abspath(args.cwd))`, then the three
preflight commands.  Every `run_command` call passes `dry_run` and
`verbose` as the defaults `False`: `main` never forwards `args.dry_run`
or `args.verbose` to the runner (it reads `args.verbose` only for the
`find git` diagnostic). -/
def mainBody (abspath : String → String) (world : Nat → CmdOutcome)
    (argv : List String) (s : PState) : ExitResult × PState :=
  match parse_args argv with
  | .error code => (.exit code, s)
  | .ok args =>
    let s0 : PState := { s with cwd := abspath args.cwd }
    let r1 := run_command world "git --version" false false s0
    if r1.1.1 ≠ 0 then (.exit 1, pushErr r1.2 "git is not installed.")
    else
      let s1 := if args.verbose.truthy then
                  pushOut r1.2 ("find git:  " ++ r1.1.2)
                else r1.2
      let r2 := run_command world "git rev-parse --is-inside-work-tree"
                  false false s1
      if r2.1.1 ≠ 0 ∧ strip r2.1.2 ≠ "true" then
        (.exit 1, pushErr r2.2 "not a valid git repo.")
      else
        let r3 := run_command world "git rev-parse HEAD" false false r2.2
        if r3.1.1 ≠ 0 then
          (.exit 1, pushErr r3.2 "failed to get base commit-id.")
        else (.normal, r3.2)

/-- Embedding of `main()` (lines 127-164): save
`path.abspath(os.getcwd())`, run the protected body, and — whatever the
body's outcome — restore the saved working directory in the `finally`
block before the result (normal return or propagating `SystemExit`)
leaves the function. -/
def main (abspath : String → String) (world : Nat → CmdOutcome)
    (argv : List String) (s : PState) : ExitResult × PState :=
  let saved := abspath s.cwd
  let r := mainBody abspath world argv s
  (r.1, { r.2 with cwd := saved })

/-- Embedding of `create_tracer_branch(branch_name, dry_run, verbose)`
(lines 100-124): list branches matching the name (note: this call does
not forward `dry_run`/`verbose`, so the list query always really
executes); on non-zero code print a diagnostic to stderr; if the trimmed
listing is empty, optionally echo, then issue the create command (this
one does forward the flags); on non-zero code print a diagnostic to
stderr.  The function returns a state and nothing else: it contains no
`sys.exit`, so it can never terminate the process. -/
def create_tracer_branch (world : Nat → CmdOutcome) (branch_name : String)
    (dry_run verbose : Bool) (s : PState) : PState :=
  let r1 := run_command world ("git branch --list " ++ branch_name)
              false false s
  let s1 := if r1.1.1 ≠ 0 then
              pushErr r1.2 ("command failed:  " ++ r1.1.2)
            else r1.2
  if strip r1.1.2 = "" then
    let s2 := if verbose then pushOut s1 ("create branch:  " ++ r1.1.2)
              else s1
    let r2 := run_command world ("git branch " ++ branch_name)
                dry_run verbose s2
    if r2.1.1 ≠ 0 then pushErr r2.2 ("command failed:  " ++ r2.1.2)
    else r2.2
  else s1

/-- A world in which every command succeeds with output "true". -/
def worldAllTrue : Nat → CmdOutcome := fun _ => .completed 0 "true"

/-- A world in which every command fails to spawn (e.g. git not found). -/
def worldNoGit : Nat → CmdOutcome := fun _ => .otherFailure

/-- A world in which the version query succeeds but every later command
exits 128 with a fatal message. -/
def worldBadRepo : Nat → CmdOutcome
  | 0 => .completed 0 "git version 2.47.0"
  | _ => .completed 128 "fatal"

/-- A world in which the version and work-tree queries succeed but HEAD
resolution exits 128. -/
def worldHeadFails : Nat → CmdOutcome
  | 0 => .completed 0 "git version 2.47.0"
  | 1 => .completed 0 "true"
  | _ => .completed 128 "fatal"

/-- A world in which every command times out with partial output. -/
def worldTimesOut : Nat → CmdOutcome := fun _ => .timedOut "part"

/-- A world in which every command exits 5 with some output. -/
def worldExitFive : Nat → CmdOutcome := fun _ => .completed 5 "boom"

/-- A world in which every command succeeds with empty output (for the
branch-list query: no branch matches). -/
def worldNoBranch : Nat → CmdOutcome := fun _ => .completed 0 ""

/-! Helper lemmas: the two evaluation rules of the command runner, and
projections pushed through an `if` on a `PState`. -/

theorem run_command_not_dry (world : Nat → CmdOutcome) (cmd : String)
    (verbose : Bool) (s : PState) :
    run_command world cmd false verbose s =
      (runReal (world s.execCount),
       { s with execCount := s.execCount + 1,
                executed := s.executed ++ [cmd],
                issued := s.issued ++ [cmd],
                stdoutLines := if verbose then s.stdoutLines ++ [cmd]
                               else s.stdoutLines }) := by
  simp [run_command]

theorem run_command_dry (world : Nat → CmdOutcome) (cmd : String)
    (verbose : Bool) (s : PState) :
    run_command world cmd true verbose s =
      ((0, ""),
       { s with issued := s.issued ++ [cmd],
                stdoutLines := s.stdoutLines ++ [cmd] }) := by
  simp [run_command]

@[simp] theorem PState.ite_issued (c : Prop) [Decidable c] (a b : PState) :
    (if c then a else b).issued = if c then a.issued else b.issued := by
  split <;> rfl

@[simp] theorem PState.ite_executed (c : Prop) [Decidable c] (a b : PState) :
    (if c then a else b).executed = if c then a.executed else b.executed := by
  split <;> rfl

@[simp] theorem PState.ite_execCount (c : Prop) [Decidable c] (a b : PState) :
    (if c then a else b).execCount = if c then a.execCount else b.execCount := by
  split <;> rfl

@[simp] theorem PState.ite_stderrLines (c : Prop) [Decidable c] (a b : PState) :
    (if c then a else b).stderrLines =
      if c then a.stderrLines else b.stderrLines := by
  split <;> rfl

@[simp] theorem PState.ite_cwd (c : Prop) [Decidable c] (a b : PState) :
    (if c then a else b).cwd = if c then a.cwd else b.cwd := by
  split <;> rfl

/-- C1: the claim says that with the dry-run flag enabled no external
command is ever actually executed, and in particular main's three
preflight invocations perform no real subprocess execution.  The code
contradicts this: `main` parses `-n` into `args.dry_run` but never
forwards it to `run_command` (lines 143, 151 and 157 use the default
`dry_run=False`), so with the flag enabled and all commands succeeding,
all three preflight commands really spawn subprocesses.  This closed
evaluation exhibits that failing run: dry-run is enabled (truthy) yet
`executed`, the list of real subprocess spawns, is the full preflight
list. -/
theorem dry_run_flag_not_forwarded :
    parse_args ["-n", "1"] = .ok { Args.initial with dry_run := .str "1" } ∧
    ArgVal.truthy (.str "1") = true ∧
    (main id worldAllTrue ["-n", "1"] (PState.init "/repo")).2.executed =
      preflightCmds :=
  ⟨rfl, rfl, rfl⟩

/-- C2: in the repository-validity preflight, the run terminates there
with exit code 1 (printing "not a valid git repo." and issuing no third
command) exactly when the returned code is non-zero AND the stripped
output is not "true"; otherwise — including a non-zero code whose output
strips to "true", and any zero code — the run goes on to issue the third
preflight command and the validity diagnostic is never printed. -/
theorem repo_validity_fatal_iff (abspath : String → String)
    (world : Nat → CmdOutcome) (argv : List String) (args : Args) (d : String)
    (hparse : parse_args argv = .ok args)
    (h1 : (runReal (world 0)).1 = 0) :
    (((runReal (world 1)).1 ≠ 0 ∧ strip (runReal (world 1)).2 ≠ "true") →
       (main abspath world argv (PState.init d)).1 = .exit 1 ∧
       (main abspath world argv (PState.init d)).2.issued =
         preflightCmds.take 2 ∧
       "not a valid git repo." ∈
         (main abspath world argv (PState.init d)).2.stderrLines) ∧
    (¬ ((runReal (world 1)).1 ≠ 0 ∧ strip (runReal (world 1)).2 ≠ "true") →
       (main abspath world argv (PState.init d)).2.issued = preflightCmds ∧
       "not a valid git repo." ∉
         (main abspath world argv (PState.init d)).2.stderrLines) := by
  constructor
  · intro hc
    simp [main, mainBody, hparse, run_command_not_dry, PState.init, pushOut,
      pushErr, preflightCmds, h1, hc]
  · intro hc
    by_cases h3 : (runReal (world 2)).1 ≠ 0 <;>
      simp [main, mainBody, hparse, run_command_not_dry, PState.init, pushOut,
        pushErr, preflightCmds, h1, hc, h3]

/-- C2 witness: with the work-tree query exiting 128 with output "fatal",
the run exits 1 having issued only the first two commands. -/
theorem repo_validity_fatal_iff_witness :
    (main id worldBadRepo [] (PState.init "/tmp")).1 = .exit 1 ∧
    (main id worldBadRepo [] (PState.init "/tmp")).2.issued =
      preflightCmds.take 2 := by
  have h := (repo_validity_fatal_iff id worldBadRepo [] Args.initial "/tmp"
      rfl (by decide)).1 (by decide)
  exact ⟨h.1, h.2.1⟩

/-- C3: whatever the world, argument vector and exit path (normal
completion, fatal preflight exit, or argument-parsing failure raised
inside the protected block), the working directory after `main` equals
its pre-invocation value: the `finally` block restores the directory
saved on entry.  The hypothesis records that `os.getcwd()` returns an
absolute path, so `path.abspath` leaves the saved value unchanged. -/
theorem main_restores_working_directory (abspath : String → String)
    (world : Nat → CmdOutcome) (argv : List String) (s : PState)
    (h : abspath s.cwd = s.cwd) :
    (main abspath world argv s).2.cwd = s.cwd := by
  simp [main, h]

/-- C3 witness: a run that changes into "/elsewhere" via `-C` ends back in
the original directory. -/
theorem main_restores_working_directory_witness :
    (main id worldAllTrue ["-C", "/elsewhere"]
        (PState.init "/home/user")).2.cwd = "/home/user" :=
  main_restores_working_directory id worldAllTrue ["-C", "/elsewhere"]
    (PState.init "/home/user") rfl

/-- C4: a complete run of `main` never reaches `create_tracer_branch`:
the commands passed to the runner are always an initial segment of the
three preflight commands (version query, work-tree query, HEAD
resolution), so in particular no branch-list and no branch-create command
is ever issued. -/
theorem main_never_calls_create_tracer_branch (abspath : String → String)
    (world : Nat → CmdOutcome) (argv : List String) (d : String) :
    ∃ n, n ≤ 3 ∧
      (main abspath world argv (PState.init d)).2.issued =
        preflightCmds.take n := by
  cases hp : parse_args argv with
  | error c =>
      exact ⟨0, by norm_num, by simp [main, mainBody, hp, PState.init]⟩
  | ok args =>
      by_cases h1 : (runReal (world 0)).1 ≠ 0
      · exact ⟨1, by norm_num, by
          simp [main, mainBody, hp, run_command_not_dry, PState.init, pushOut,
            pushErr, preflightCmds, h1]⟩
      · by_cases h2 : (runReal (world 1)).1 ≠ 0 ∧
            strip (runReal (world 1)).2 ≠ "true"
        · exact ⟨2, by norm_num, by
            simp [main, mainBody, hp, run_command_not_dry, PState.init,
              pushOut, pushErr, preflightCmds, h1, h2]⟩
        · by_cases h3 : (runReal (world 2)).1 ≠ 0
          · exact ⟨3, by norm_num, by
              simp [main, mainBody, hp, run_command_not_dry, PState.init,
                pushOut, pushErr, preflightCmds, h1, h2, h3]⟩
          · exact ⟨3, by norm_num, by
              simp [main, mainBody, hp, run_command_not_dry, PState.init,
                pushOut, pushErr, preflightCmds, h1, h2, h3]⟩

/-- C5: if the tool-presence check (version query) returns a non-zero
code, `main` exits with code 1 having issued only that one command: the
repository-validity query is never attempted. -/
theorem tool_check_failure_exits_early (abspath : String → String)
    (world : Nat → CmdOutcome) (argv : List String) (args : Args) (d : String)
    (hparse : parse_args argv = .ok args)
    (h1 : (runReal (world 0)).1 ≠ 0) :
    (main abspath world argv (PState.init d)).1 = .exit 1 ∧
    (main abspath world argv (PState.init d)).2.issued =
      ["git --version"] := by
  simp [main, mainBody, hparse, run_command_not_dry, PState.init, pushOut,
    pushErr, h1]

/-- C5 witness: when git cannot be spawned at all (sentinel -1), the run
exits 1 after the single version query. -/
theorem tool_check_failure_exits_early_witness :
    (main id worldNoGit [] (PState.init "/tmp")).1 = .exit 1 ∧
    (main id worldNoGit [] (PState.init "/tmp")).2.issued =
      ["git --version"] :=
  tool_check_failure_exits_early id worldNoGit [] Args.initial "/tmp" rfl
    (by decide)

/-- C6: if the tool-presence check passes and the repository-validity
check does not trigger its fatal branch, but the HEAD resolution returns
a non-zero code, then `main` exits with code 1. -/
theorem head_resolution_failure_exits (abspath : String → String)
    (world : Nat → CmdOutcome) (argv : List String) (args : Args) (d : String)
    (hparse : parse_args argv = .ok args)
    (h1 : (runReal (world 0)).1 = 0)
    (h2 : ¬ ((runReal (world 1)).1 ≠ 0 ∧ strip (runReal (world 1)).2 ≠ "true"))
    (h3 : (runReal (world 2)).1 ≠ 0) :
    (main abspath world argv (PState.init d)).1 = .exit 1 := by
  simp [main, mainBody, hparse, run_command_not_dry, PState.init, pushOut,
    pushErr, h1, h2, h3]

/-- C6 witness: version query and work-tree query succeed, HEAD resolution
exits 128; the run exits 1. -/
theorem head_resolution_failure_exits_witness :
    (main id worldHeadFails [] (PState.init "/tmp")).1 = .exit 1 :=
  head_resolution_failure_exits id worldHeadFails [] Args.initial "/tmp" rfl
    rfl (by decide) (by decide)

/-- C7: a real (non-dry-run) runner invocation whose command times out
returns the pair (-1, partial captured stdout): the timeout surfaces as
the sentinel code, not as an exception (the runner is a total function
into result pairs). -/
theorem run_command_timeout_sentinel (world : Nat → CmdOutcome)
    (cmd : String) (verbose : Bool) (s : PState) (captured : String)
    (h : world s.execCount = .timedOut captured) :
    (run_command world cmd false verbose s).1 = (-1, captured) := by
  simp [run_command_not_dry, h, runReal]

/-- C7 witness: a timed-out version query returns (-1, "part"). -/
theorem run_command_timeout_sentinel_witness :
    (run_command worldTimesOut "git --version" false false
        (PState.init "/tmp")).1 = (-1, "part") :=
  run_command_timeout_sentinel worldTimesOut "git --version" false
    (PState.init "/tmp") "part" rfl

/-- C8: a real (non-dry-run) runner invocation whose command completes
with a non-zero exit code returns that code paired with the captured
stdout (the `CalledProcessError` is absorbed, not propagated), and one
that fails in any other unexpected way returns the sentinel (-1, ""). -/
theorem run_command_failure_results (world : Nat → CmdOutcome)
    (cmd : String) (verbose : Bool) (s : PState) :
    (∀ code out, code ≠ 0 → world s.execCount = .completed code out →
       (run_command world cmd false verbose s).1 = (code, out)) ∧
    (world s.execCount = .otherFailure →
       (run_command world cmd false verbose s).1 = (-1, "")) := by
  constructor
  · intro code out _ h
    simp [run_command_not_dry, h, runReal]
  · intro h
    simp [run_command_not_dry, h, runReal]

/-- C8 witness: a command exiting 5 with output "boom" yields (5, "boom");
a command that fails to spawn yields (-1, ""). -/
theorem run_command_failure_results_witness :
    (run_command worldExitFive "git --version" false false
        (PState.init "/tmp")).1 = (5, "boom") ∧
    (run_command worldNoGit "git --version" false false
        (PState.init "/tmp")).1 = (-1, "") :=
  ⟨(run_command_failure_results worldExitFive "git --version" false
      (PState.init "/tmp")).1 5 "boom" (by decide) rfl,
   (run_command_failure_results worldNoGit "git --version" false
      (PState.init "/tmp")).2 rfl⟩

/-- C9: the branch-create command is passed to the runner if and only if
the stripped output of the branch-list query is empty — a non-empty
stripped listing issues the list query alone, an empty one issues exactly
the list query followed by one create command — and whatever fails, the
ensurer only ever appends "command failed" diagnostics to the error
stream and always returns a state (it contains no process exit). -/
theorem create_tracer_branch_create_iff (world : Nat → CmdOutcome)
    (name : String) (dry_run verbose : Bool) (s : PState) :
    (strip (runReal (world s.execCount)).2 ≠ "" →
       (create_tracer_branch world name dry_run verbose s).issued =
         s.issued ++ ["git branch --list " ++ name]) ∧
    (strip (runReal (world s.execCount)).2 = "" →
       (create_tracer_branch world name dry_run verbose s).issued =
         s.issued ++ ["git branch --list " ++ name, "git branch " ++ name]) ∧
    (∃ l, (create_tracer_branch world name dry_run verbose s).stderrLines =
            s.stderrLines ++ l ∧
          ∀ x ∈ l, ∃ m, x = "command failed:  " ++ m) := by
  refine ⟨fun hne => ?_, fun he => ?_, ?_⟩
  · by_cases h1 : (runReal (world s.execCount)).1 ≠ 0 <;>
      simp [create_tracer_branch, run_command_not_dry, pushOut, pushErr, h1,
        hne]
  · by_cases h1 : (runReal (world s.execCount)).1 ≠ 0 <;>
      cases dry_run <;>
        by_cases h2 : (runReal (world (s.execCount + 1))).1 ≠ 0 <;>
          cases verbose <;>
            simp [create_tracer_branch, run_command_not_dry, run_command_dry,
              pushOut, pushErr, h1, h2, he]
  · by_cases he : strip (runReal (world s.execCount)).2 = "" <;>
      by_cases h1 : (runReal (world s.execCount)).1 ≠ 0 <;>
        cases dry_run <;>
          by_cases h2 : (runReal (world (s.execCount + 1))).1 ≠ 0 <;>
            cases verbose <;>
              simp [create_tracer_branch, run_command_not_dry, run_command_dry,
                pushOut, pushErr, h1, h2, he]

/-- C9 witness: with the listing empty, exactly the list command and then
one create command are issued. -/
theorem create_tracer_branch_create_iff_witness :
    (create_tracer_branch worldNoBranch "build-tracer" false false
        (PState.init "/tmp")).issued =
      ["git branch --list build-tracer", "git branch build-tracer"] := by
  have h := (create_tracer_branch_create_iff worldNoBranch "build-tracer"
      false false (PState.init "/tmp")).2.1 rfl
  simpa [PState.init] using h

/-- C10: `-n` and `-v` are store actions that require an explicit value:
a bare `-n` or `-v` fails argument parsing (argparse raises
`SystemExit(2)`, so `main` exits with the non-zero code 2), while any
supplied non-empty, non-option value — including the literal string
"false" — is stored and is truthy; a string is falsy exactly when it is
empty, so no supplied value other than the empty string can disable the
mode. -/
theorem dry_run_verbose_require_value (s : String) (h1 : s ≠ "")
    (h2 : looksLikeOption s = false) :
    parse_args ["-n"] = .error 2 ∧
    parse_args ["-v"] = .error 2 ∧
    (∀ (abspath : String → String) (world : Nat → CmdOutcome) (st : PState),
       (main abspath world ["-n"] st).1 = .exit 2 ∧
       (main abspath world ["-v"] st).1 = .exit 2) ∧
    parse_args ["-n", s] = .ok { Args.initial with dry_run := .str s } ∧
    parse_args ["-v", s] = .ok { Args.initial with verbose := .str s } ∧
    ArgVal.truthy (.str s) = true ∧
    (∀ t : String, ArgVal.truthy (.str t) = false ↔ t = "") := by
  refine ⟨rfl, rfl, fun abspath world st => ⟨?_, ?_⟩, ?_, ?_, ?_, ?_⟩
  · simp [main, mainBody, parse_args, parseTokens]
  · simp [main, mainBody, parse_args, parseTokens]
  · simp [parse_args, parseTokens, h2]
  · simp [parse_args, parseTokens, h2]
  · simp [ArgVal.truthy, h1]
  · intro t
    simp [ArgVal.truthy]

/-- C10 witness: bare `-n` is a parse error, while `-n false` parses and
stores the truthy string "false". -/
theorem dry_run_verbose_require_value_witness :
    parse_args ["-n"] = .error 2 ∧
    parse_args ["-n", "false"] =
      .ok { Args.initial with dry_run := .str "false" } ∧
    ArgVal.truthy (.str "false") = true := by
  have h := dry_run_verbose_require_value "false" (by decide) rfl
  exact ⟨h.1, h.2.2.2.1, h.2.2.2.2.2.1⟩

end BuildTracer
